import Mathlib

/-
Verification of the HEOS controller's renderer-side discovery, polling and
error-log logic, embedded shallowly from:
  src/static/js/renderer.js  (Alpine `heosController` component)
  src/unnamed/part_002       (Electron preload script: error-log bridge)
JavaScript objects become Lean structures; a possibly-absent property is an
`Option`; the JS falsy-default idiom `x || d` is `jsOrStr`/`jsOrInt`;
an `async` function is a pure function of its state plus the outcome of each
awaited call; a thrown exception is an explicit error branch.
-/

namespace HeosController

/-- A JavaScript number as it can end up in `device.volume`: either NaN
(e.g. from `parseInt` on a non-numeric string) or an integer. -/
inductive JsNum where
  | nan : JsNum
  | int : Int → JsNum
deriving DecidableEq

/-- Value of a decimal digit string, most significant first. -/
def natOfDigits (ds : List Char) : Nat :=
  ds.foldl (fun a c => a * 10 + (c.toNat - 48)) 0

/-- Shared core of `jsParseInt`: consume the longest digit prefix. -/
def jsParseIntCore (sign : Int) (r : List Char) : JsNum :=
  let ds := r.takeWhile Char.isDigit
  if ds.isEmpty then JsNum.nan else JsNum.int (sign * (natOfDigits ds : Int))

/-- JavaScript `parseInt` (radix 10): trim whitespace, optional sign, longest
decimal-digit prefix; NaN when no digit is found. -/
def jsParseInt (s : String) : JsNum :=
  match s.trim.toList with
  | '-' :: r => jsParseIntCore (-1) r
  | '+' :: r => jsParseIntCore 1 r
  | r => jsParseIntCore 1 r

/-- JavaScript `v || dflt` for a possibly-absent string property: absent and
the empty string are falsy. -/
def jsOrStr (v : Option String) (dflt : String) : String :=
  match v with
  | none => dflt
  | some s => if s = "" then dflt else s

/-- JavaScript `v || dflt` for a possibly-absent number property: absent and
0 are falsy. -/
def jsOrInt (v : Option Int) (dflt : Int) : Int :=
  match v with
  | none => dflt
  | some n => if n = 0 then dflt else n

/-- JavaScript `v || null` for a possibly-absent string property. -/
def jsOrNull (v : Option String) : Option String :=
  match v with
  | none => none
  | some s => if s = "" then none else some s

/-- The `info` sub-object of a device record in the discovery response. -/
structure RawInfo where
  name : Option String
  model : Option String
deriving DecidableEq

/-- The `state` sub-object of a device record in the discovery response. -/
structure RawState where
  play_state : Option String
  volume : Option Int
deriving DecidableEq

/-- One element of `data.devices` in the discovery response, before the
renderer's defaulting map (renderer.js lines 123-133). -/
structure RawDevice where
  ip : Option String
  status : Option String
  error : Option String
  state : Option RawState
  info : Option RawInfo
deriving DecidableEq

/-- A device as stored in `this.deviceList` after the discovery map.
`state` and `volume` are `Option`s to record whether the JS property is
present at all; the discovery map and the poller write them explicitly. -/
structure Device where
  ip : String
  name : String
  model : String
  status : String
  error : Option String
  state : Option String
  volume : Option JsNum
deriving DecidableEq

/-- The per-device mapping the renderer applies to every element of
`data.devices` (renderer.js lines 123-133):
`state: device.state?.play_state || 'stopped'`,
`volume: device.state?.volume || 0`, plus defaulted identity fields. -/
def mapDevice (d : RawDevice) : Device :=
  { ip := jsOrStr d.ip "Unknown IP"
  , name := jsOrStr (d.info.bind RawInfo.name) "Unknown Device"
  , model := jsOrStr (d.info.bind RawInfo.model) "Unknown Model"
  , status := jsOrStr d.status "unknown"
  , error := jsOrNull d.error
  , state := some (jsOrStr (d.state.bind RawState.play_state) "stopped")
  , volume := some (JsNum.int (jsOrInt (d.state.bind RawState.volume) 0)) }

/-- The Alpine component state touched by `discoverDevices`
(renderer.js lines 26-30). `errorMessage` is `""` when cleared. -/
structure AppState where
  deviceList : List Device
  isLoading : Bool
  errorMessage : String
  discoveryInProgress : Bool
  lastDiscoveryTime : Option Nat
deriving DecidableEq

/-- Outcome of one discovery fetch as observed by `discoverDevices`:
either some exception was thrown before the devices array was validated
(fetch rejection, non-ok response, or the invalid-format throw of line 113,
all funnelled into the same `catch`) carrying the error message, or a
well-formed devices array arrived. -/
inductive SweepOutcome where
  | fail : String → SweepOutcome
  | ok : List RawDevice → SweepOutcome
deriving DecidableEq

/-- Embeds `discoverDevices` (renderer.js lines 78-153) as a function of the
component state and the sweep outcome; `now` stands for `Date.now()`.
The second component counts network sweeps actually started (the fetch of
line 90): 0 on the in-progress early return, 1 otherwise.  The trailing
updates of `isLoading`/`discoveryInProgress` embed the `finally` block. -/
def discoverDevices (s : AppState) (o : SweepOutcome) (now : Nat) : AppState × Nat :=
  if s.discoveryInProgress then (s, 0)
  else
    let s1 := { s with discoveryInProgress := true, isLoading := true, errorMessage := "" }
    let s2 :=
      match o with
      | SweepOutcome.fail msg =>
          { s1 with errorMessage := "Discovery failed: " ++ msg, deviceList := [] }
      | SweepOutcome.ok devs =>
          if devs = [] then
            { s1 with errorMessage := "No HEOS devices found on your network", deviceList := [] }
          else
            { s1 with deviceList := devs.map mapDevice, lastDiscoveryTime := some now }
    ({ s2 with isLoading := false, discoveryInProgress := false }, 1)

/-- An error-log entry as built by `logError` in main.js. -/
structure ErrorLog where
  timestamp : String
  message : String
  error : Option String
  stack : Option String
deriving DecidableEq

/-- The error-log append handler (renderer.js lines 52-58, and identically
the `ipcRenderer.on` handler of the preload script lines 8-16):
`push(log)` then `if (length > 100) shift()`. -/
def onErrorLog (errorLogs : List ErrorLog) (log : ErrorLog) : List ErrorLog :=
  let l := errorLogs ++ [log]
  if l.length > 100 then l.drop 1 else l

/-- A `CustomEvent` dispatched on `window` by the preload script. -/
inductive WindowEvent where
  | errorLogUpdated : ErrorLog → WindowEvent
  | errorLogsCleared : WindowEvent
deriving DecidableEq

/-- The preload script's module state: its `errorLogs` array together with the
sequence of `CustomEvent`s it has dispatched, in order. -/
structure Preload where
  errorLogs : List ErrorLog
  dispatched : List WindowEvent
deriving DecidableEq

/-- `clearErrorLogs` of the preload script (part_002 lines 60-63):
empties the array and dispatches one `error-logs-cleared` event. -/
def clearErrorLogs (p : Preload) : Preload :=
  { errorLogs := [], dispatched := p.dispatched ++ [WindowEvent.errorLogsCleared] }

/-- `getErrorLogs` of the preload script: returns the current array. -/
def getErrorLogs (p : Preload) : List ErrorLog := p.errorLogs

/-- The preload script's `ipcRenderer.on` handler for an incoming log
(part_002 lines 8-16): same push/shift as `onErrorLog`, then dispatches one
`error-log-updated` event. -/
def ipcOnErrorLog (p : Preload) (log : ErrorLog) : Preload :=
  { errorLogs := onErrorLog p.errorLogs log
  , dispatched := p.dispatched ++ [WindowEvent.errorLogUpdated log] }

/-- Tests whether an event is the distinct cleared notification. -/
def isClearedEvent : WindowEvent → Bool
  | WindowEvent.errorLogsCleared => true
  | _ => false

/-- Number of cleared notifications in a dispatched-event sequence. -/
def countCleared (evs : List WindowEvent) : Nat :=
  (evs.filter isClearedEvent).length

/-- The `heos` sub-object of a command response. -/
structure HeosObj where
  result : Option String
deriving DecidableEq

/-- The `payload` sub-object of a command response; `level` is carried for
volume reads, `state` for play-state reads (JS objects are untyped, so one
shape serves both). -/
structure Payload where
  level : Option String
  state : Option String
deriving DecidableEq

/-- A command response object as read by `pollStatus`:
`resp.heos?.result` and `resp.payload?.level` / `resp.payload?.state`. -/
structure Resp where
  heos : Option HeosObj
  payload : Option Payload
deriving DecidableEq

/-- The test `resp.heos?.result === 'success'` (renderer.js lines 162, 168). -/
def heosOk (r : Resp) : Bool :=
  r.heos.bind HeosObj.result == some "success"

/-- Message of the TypeError thrown when `.heos` is read off an undefined
command result (renderer.js lines 162/168 with an undefined response). -/
def typeErrMsg : String := "Cannot read properties of undefined (reading heos)"

/-- Value assigned by `device.volume = parseInt(resp.payload?.level || 0)`
(renderer.js line 163): an absent or empty level falls back to 0. -/
def pollVolumeValue (level : Option String) : JsNum :=
  match level with
  | none => JsNum.int 0
  | some s => if s = "" then JsNum.int 0 else jsParseInt s

/-- Value assigned by `device.state = resp.payload?.state?.toLowerCase() ||
'stopped'` (renderer.js line 169). -/
def pollStateValue (st : Option String) : String :=
  match st with
  | none => "stopped"
  | some s => if s.toLower = "" then "stopped" else s.toLower

/-- Embeds the inner `pollStatus` closure (renderer.js lines 158-180) as a
function of the device and of what each `await this.sendCommand(...)`
evaluates to (`none` = undefined, on which reading `.heos` throws and the
`catch` of lines 175-179 runs; in that case the second command is never
awaited).  The second component counts sendCommand calls issued. -/
def pollStatusWith (d : Device) (vr sr : Option Resp) : Device × Nat :=
  match vr with
  | none => ({ d with status := "error", error := some typeErrMsg }, 1)
  | some v =>
    let d1 := if heosOk v then
        { d with volume := some (pollVolumeValue (v.payload.bind Payload.level)) }
      else d
    match sr with
    | none => ({ d1 with status := "error", error := some typeErrMsg }, 2)
    | some st =>
      let d2 := if heosOk st then
          { d1 with state := some (pollStateValue (st.payload.bind Payload.state)) }
        else d1
      ({ d2 with status := "connected", error := none }, 2)

/-- One tick of the 5-second interval of `pollDeviceStatus` (renderer.js
lines 186-192): poll only while `device.status === 'connected'`, otherwise
`clearInterval` fires and the device is untouched, with no request issued. -/
def pollTick (d : Device) (vr sr : Option Resp) : Device × Nat :=
  if d.status = "connected" then pollStatusWith d vr sr else (d, 0)

/-- A run of interval ticks; accumulates the number of requests issued. -/
def pollTicks (d : Device) (rs : List (Option Resp × Option Resp)) : Device × Nat :=
  match rs with
  | [] => (d, 0)
  | (vr, sr) :: rest =>
    let r1 := pollTick d vr sr
    let r2 := pollTicks r1.1 rest
    (r2.1, r1.2 + r2.2)

/-- Outcome of one `window.api.sendCommand` call: a resolved response or a
rejection with a message. -/
inductive ApiOutcome where
  | ok : Resp → ApiOutcome
  | threw : String → ApiOutcome
deriving DecidableEq

/-- Embeds the component's `sendCommand` (renderer.js lines 195-212).  The
function body never returns the awaited result and its `catch` swallows the
rejection, so the returned value (second component) is undefined (`none`) on
every path: the early parameter check, the success path (which only logs the
result), and the error path (which sets `errorMessage`). -/
def sendCommand (s : AppState) (ip command : String) (value : Option String)
    (api : ApiOutcome) : AppState × Option Resp :=
  if ip = "" ∨ command = "" then (s, none)
  else
    match api with
    | ApiOutcome.ok _ => ({ s with errorMessage := "" }, none)
    | ApiOutcome.threw m =>
        ({ s with errorMessage := "Failed to send " ++ command ++ " command: " ++ m }, none)

/-- One execution of the inner `pollStatus` closure with the two awaited
calls going through the component's own `sendCommand` (as the source does:
`await this.sendCommand(device.ip, 'player/get_volume')` then
`await this.sendCommand(device.ip, 'player/get_play_state')`), parametrised
by the outcome each underlying `window.api.sendCommand` would have. -/
def runPoll (d : Device) (s : AppState) (api1 api2 : ApiOutcome) : Device × AppState :=
  let r1 := sendCommand s d.ip "player/get_volume" none api1
  match r1.2 with
  | none => ({ d with status := "error", error := some typeErrMsg }, r1.1)
  | some v =>
    let d1 := if heosOk v then
        { d with volume := some (pollVolumeValue (v.payload.bind Payload.level)) }
      else d
    let r2 := sendCommand r1.1 d.ip "player/get_play_state" none api2
    match r2.2 with
    | none => ({ d1 with status := "error", error := some typeErrMsg }, r2.1)
    | some st =>
      let d2 := if heosOk st then
          { d1 with state := some (pollStateValue (st.payload.bind Payload.state)) }
        else d1
      ({ d2 with status := "connected", error := none }, r2.1)

/-- A discovery-response device with no `state` payload, as delivered for a
device whose playback state has not been read yet. -/
def rawA : RawDevice :=
  { ip := some "10.0.0.5", status := some "connected", error := none
  , state := none, info := none }

/-- A second discovery-response device, at a different address. -/
def rawB : RawDevice :=
  { ip := some "10.0.0.7", status := some "connected", error := none
  , state := none, info := none }

/-- A connected device with known playback state, as it sits in the registry
after a successful poll. -/
def devA : Device :=
  { ip := "10.0.0.9", name := "B", model := "Speaker", status := "connected"
  , error := none, state := some "stopped", volume := some (JsNum.int 30) }

/-- The same device after it has been marked unreachable. -/
def devErr : Device := { devA with status := "error", error := some typeErrMsg }

/-- A component state holding one known device, with no sweep in flight. -/
def s0 : AppState :=
  { deviceList := [devA], isLoading := false, errorMessage := ""
  , discoveryInProgress := false, lastDiscoveryTime := none }

/-- The same component state while a sweep is in flight. -/
def sBusy : AppState := { s0 with discoveryInProgress := true, isLoading := true }

/-- A concrete error-log entry. -/
def log0 : ErrorLog :=
  { timestamp := "2024-01-01T00:00:00.000Z", message := "Discovery failed"
  , error := none, stack := none }

/-- A successful volume-read response carrying level 30. -/
def respVolOk : Resp :=
  { heos := some { result := some "success" }
  , payload := some { level := some "30", state := none } }

/-- A successful play-state-read response carrying state `play`. -/
def respStateOk : Resp :=
  { heos := some { result := some "success" }
  , payload := some { level := none, state := some "play" } }

/-- Helper: a device whose status is not `connected` is never polled again —
every further interval tick leaves it unchanged and issues no request. -/
theorem pollTicks_stopped (d : Device) (h : ¬ d.status = "connected") :
    ∀ rs, pollTicks d rs = (d, 0) := by
  intro rs
  induction rs with
  | nil => rfl
  | cons p rest ih =>
    obtain ⟨vr, sr⟩ := p
    simp [pollTicks, pollTick, h, ih]

/-- Helper: one append preserves the 100-entry bound of the error log. -/
theorem onErrorLog_length_le (logs : List ErrorLog) (e : ErrorLog)
    (h : logs.length ≤ 100) : (onErrorLog logs e).length ≤ 100 := by
  unfold onErrorLog
  by_cases hgt : (logs ++ [e]).length > 100
  · rw [if_pos hgt]
    simp only [List.length_drop, List.length_append, List.length_singleton]
    omega
  · rw [if_neg hgt]
    simp only [List.length_append, List.length_singleton] at hgt ⊢
    omega

/-- Helper: any sequence of appends starting from the empty log stays within
the 100-entry bound. -/
theorem foldl_onErrorLog_le (es : List ErrorLog) :
    ∀ acc : List ErrorLog, acc.length ≤ 100 →
      (List.foldl onErrorLog acc es).length ≤ 100 := by
  induction es with
  | nil => intro acc h; simpa using h
  | cons e rest ih =>
    intro acc h
    simpa using ih (onErrorLog acc e) (onErrorLog_length_le acc e h)

/-- C1 counterexample: immediately after a discovery sweep upserts the device
`rawA` — before any poll has run — the mapped device already carries a play
state (`stopped`) and a volume value (0); both fields are set, not absent as
the claim requires. -/
theorem c1_counterexample :
    ¬ ((mapDevice rawA).state = none ∧ (mapDevice rawA).volume = none) ∧
    (mapDevice rawA).state = some "stopped" ∧
    (mapDevice rawA).volume = some (JsNum.int 0) := by
  refine ⟨?_, rfl, rfl⟩
  intro h
  exact Option.noConfusion (h.1.symm.trans rfl)

/-- C1 (amended): immediately after a discovery sweep upserts a device, its
play state and volume are always present — defaulted to `stopped` and 0 when
the sweep payload carries no state — rather than unset until a poll
succeeds. -/
theorem c1_theorem (d : RawDevice) :
    (mapDevice d).state.isSome ∧ (mapDevice d).volume.isSome ∧
    (d.state = none →
      (mapDevice d).state = some "stopped" ∧
      (mapDevice d).volume = some (JsNum.int 0)) := by
  refine ⟨rfl, rfl, ?_⟩
  intro h
  simp [mapDevice, h, jsOrStr, jsOrInt]

/-- C1 witness: the amended claim evaluated on the concrete sweep device. -/
theorem c1_witness :
    (mapDevice rawA).state = some "stopped" ∧
    (mapDevice rawA).volume = some (JsNum.int 0) :=
  (c1_theorem rawA).2.2 rfl

/-- C2 counterexample: a single poll failure — one failure, below the
spec's threshold of three — already changes the device's reachability from
`connected` to `error`, instead of leaving it unchanged. -/
theorem c2_counterexample :
    devA.status = "connected" ∧
    (pollStatusWith devA none none).1.status = "error" ∧
    ¬ (pollStatusWith devA none none).1.status = devA.status := by
  refine ⟨rfl, rfl, ?_⟩
  intro h
  exact absurd (h.symm.trans rfl) (by decide)

/-- C2 (amended): there is no consecutive-failure counter — any single poll
failure immediately sets the device's status to `error` with its error field
populated, and from then on the polling lifecycle is stopped: every further
interval tick leaves the device unchanged and issues no request. -/
theorem c2_theorem (d : Device) (vr sr : Option Resp)
    (hfail : vr = none ∨ sr = none) :
    (pollStatusWith d vr sr).1.status = "error" ∧
    (pollStatusWith d vr sr).1.error = some typeErrMsg ∧
    ∀ rs, pollTicks (pollStatusWith d vr sr).1 rs = ((pollStatusWith d vr sr).1, 0) := by
  have hs : (pollStatusWith d vr sr).1.status = "error" ∧
      (pollStatusWith d vr sr).1.error = some typeErrMsg := by
    rcases hfail with h | h
    · subst h; exact ⟨rfl, rfl⟩
    · subst h
      cases vr with
      | none => exact ⟨rfl, rfl⟩
      | some v => exact ⟨rfl, rfl⟩
  refine ⟨hs.1, hs.2, ?_⟩
  intro rs
  exact pollTicks_stopped _ (by rw [hs.1]; decide) rs

/-- C2 witness: the amended claim evaluated on a concrete connected device
and a concrete failing poll, with one subsequent tick. -/
theorem c2_witness :
    (pollStatusWith devA none none).1.status = "error" ∧
    pollTicks (pollStatusWith devA none none).1 [(none, none)] =
      ((pollStatusWith devA none none).1, 0) :=
  ⟨(c2_theorem devA none none (Or.inl rfl)).1,
   (c2_theorem devA none none (Or.inl rfl)).2.2 [(none, none)]⟩

/-- C3 counterexample: the registry holds `devA`; a sweep then reports only
the different device `rawB`; afterwards `devA` is gone from the device list
instead of being retained with its last known state. -/
theorem c3_counterexample :
    devA ∈ s0.deviceList ∧
    devA ∉ ((discoverDevices s0 (SweepOutcome.ok [rawB]) 42).1).deviceList := by
  constructor
  · exact List.mem_singleton.mpr rfl
  · decide

/-- C3 (amended): a successful sweep replaces the device list wholesale with
the mapped devices it reported; devices previously known but absent from the
sweep are dropped, not retained. -/
theorem c3_theorem (s : AppState) (devs : List RawDevice) (now : Nat)
    (hidle : s.discoveryInProgress = false) (hne : ¬ devs = []) :
    ((discoverDevices s (SweepOutcome.ok devs) now).1).deviceList =
      devs.map mapDevice := by
  simp [discoverDevices, hidle, hne]

/-- C3 witness: the amended claim evaluated on the concrete registry and
sweep of the counterexample. -/
theorem c3_witness :
    ((discoverDevices s0 (SweepOutcome.ok [rawB]) 42).1).deviceList =
      [rawB].map mapDevice :=
  c3_theorem s0 [rawB] 42 rfl (by decide)

/-- C4 counterexample: the registry holds one device; the sweep itself fails;
afterwards the device list is empty — sweep failure does mutate the
registry, clearing it. -/
theorem c4_counterexample :
    ¬ s0.deviceList = [] ∧
    ((discoverDevices s0 (SweepOutcome.fail "fetch failed") 42).1).deviceList = [] := by
  exact ⟨by decide, rfl⟩

/-- C4 (amended): when the sweep itself fails, the failure is caught inside
`discoverDevices` (nothing is rethrown to the caller): `errorMessage` is set
to `Discovery failed: ` plus the thrown message, and the device list is
cleared to empty — the registry is reset, not left as it was. -/
theorem c4_theorem (s : AppState) (msg : String) (now : Nat)
    (hidle : s.discoveryInProgress = false) :
    ((discoverDevices s (SweepOutcome.fail msg) now).1).deviceList = [] ∧
    ((discoverDevices s (SweepOutcome.fail msg) now).1).errorMessage =
      "Discovery failed: " ++ msg ∧
    ((discoverDevices s (SweepOutcome.fail msg) now).1).lastDiscoveryTime =
      s.lastDiscoveryTime ∧
    ((discoverDevices s (SweepOutcome.fail msg) now).1).isLoading = false ∧
    ((discoverDevices s (SweepOutcome.fail msg) now).1).discoveryInProgress = false := by
  simp [discoverDevices, hidle]

/-- C4 witness: the amended claim evaluated on the concrete registry and a
concrete failing sweep. -/
theorem c4_witness :
    ((discoverDevices s0 (SweepOutcome.fail "fetch failed") 42).1).deviceList = [] ∧
    ((discoverDevices s0 (SweepOutcome.fail "fetch failed") 42).1).errorMessage =
      "Discovery failed: " ++ "fetch failed" := by
  have h := c4_theorem s0 "fetch failed" 42 rfl
  exact ⟨h.1, h.2.1⟩

/-- C5 (confirmed): calling `discoverDevices` while a sweep is already in
flight starts no network sweep and is a no-op: the state is returned
unchanged (and, like every call, it returns undefined — the same value the
in-flight call resolves to). -/
theorem c5_theorem (s : AppState) (o : SweepOutcome) (now : Nat)
    (hbusy : s.discoveryInProgress = true) :
    discoverDevices s o now = (s, 0) := by
  simp [discoverDevices, hbusy]

/-- C5 witness: a concurrent call on the concrete busy state is a no-op. -/
theorem c5_witness :
    discoverDevices sBusy (SweepOutcome.ok [rawB]) 7 = (sBusy, 0) :=
  c5_theorem sBusy (SweepOutcome.ok [rawB]) 7 rfl

/-- C6 (confirmed): the error log never exceeds its capacity of 100: one
append preserves the bound, an append at capacity drops exactly the oldest
entry and appends the new one at the end (preserving the order of the rest),
and any sequence of appends from empty stays within the bound. -/
theorem c6_theorem (logs : List ErrorLog) (e : ErrorLog) (hcap : logs.length ≤ 100) :
    (onErrorLog logs e).length ≤ 100 ∧
    (logs.length = 100 → onErrorLog logs e = logs.drop 1 ++ [e]) ∧
    ∀ es : List ErrorLog, (List.foldl onErrorLog [] es).length ≤ 100 := by
  refine ⟨onErrorLog_length_le logs e hcap, ?_,
    fun es => foldl_onErrorLog_le es [] (by simp)⟩
  intro h100
  unfold onErrorLog
  have hgt : (logs ++ [e]).length > 100 := by
    simp only [List.length_append, List.length_singleton, h100]
    omega
  rw [if_pos hgt, List.drop_append_of_le_length (by omega)]

/-- C6 witness: appending to a log at exactly capacity 100 drops the oldest
entry and appends at the end. -/
theorem c6_witness :
    onErrorLog (List.replicate 100 log0) log0 =
      (List.replicate 100 log0).drop 1 ++ [log0] :=
  (c6_theorem (List.replicate 100 log0) log0 (by simp)).2.1 (by simp)

/-- C7 (confirmed): after `clearErrorLogs`, `getErrorLogs` returns the empty
sequence, and the clear dispatches exactly one `error-logs-cleared` event —
an event distinct from the per-append `error-log-updated` notification. -/
theorem c7_theorem (p : Preload) :
    getErrorLogs (clearErrorLogs p) = [] ∧
    countCleared (clearErrorLogs p).dispatched = countCleared p.dispatched + 1 ∧
    (clearErrorLogs p).dispatched = p.dispatched ++ [WindowEvent.errorLogsCleared] := by
  refine ⟨rfl, ?_, rfl⟩
  simp [countCleared, clearErrorLogs, isClearedEvent, List.filter_append]

/-- C8 counterexample: in the volume-fails/state-succeeds order (the volume
read yields undefined, the play-state response would be a success carrying
`play`), the poll aborts on the volume read: only one request is issued, the
play-state read never happens, and the device keeps its old play state
`stopped` — the successful sub-value is not kept, contrary to the claim that
last-successful-value-wins holds for both orders. -/
theorem c8_counterexample :
    (pollStatusWith devA none (some respStateOk)).1.state = some "stopped" ∧
    ¬ (pollStatusWith devA none (some respStateOk)).1.state = some "play" ∧
    (pollStatusWith devA none (some respStateOk)).2 = 1 := by
  refine ⟨rfl, ?_, rfl⟩
  decide

/-- C8 (amended): partial keeping holds only in the volume-succeeds/
state-fails order: when the volume read returns a success response and the
play-state read yields undefined, the poll takes the error branch but the
updated volume is kept and the play state is untouched; when the volume read
yields undefined, the play-state read is never issued (one request only) and
neither playback field changes. -/
theorem c8_theorem (d : Device) (v : Resp) (sr : Option Resp)
    (hok : heosOk v = true) :
    ((pollStatusWith d (some v) none).1.volume =
        some (pollVolumeValue (v.payload.bind Payload.level)) ∧
      (pollStatusWith d (some v) none).1.status = "error" ∧
      (pollStatusWith d (some v) none).1.error = some typeErrMsg ∧
      (pollStatusWith d (some v) none).1.state = d.state) ∧
    ((pollStatusWith d none sr).1.state = d.state ∧
      (pollStatusWith d none sr).1.volume = d.volume ∧
      (pollStatusWith d none sr).2 = 1) := by
  simp [pollStatusWith, hok]

/-- C8 witness: the amended claim evaluated on a concrete device, a concrete
successful volume response and a concrete would-be play-state response. -/
theorem c8_witness :
    (pollStatusWith devA (some respVolOk) none).1.volume =
      some (pollVolumeValue (respVolOk.payload.bind Payload.level)) ∧
    (pollStatusWith devA (some respVolOk) none).1.status = "error" ∧
    (pollStatusWith devA none (some respStateOk)).1.state = devA.state := by
  have h := c8_theorem devA respVolOk (some respStateOk) (by decide)
  exact ⟨h.1.1, h.1.2.1, h.2.1⟩

/-- C9 (confirmed): the poller changes reachability only from `connected` to
`connected` or `error`: a device whose status is not `connected` is left
untouched by a tick (no request issued), a poll of a connected device ends
`connected` or `error`, and once a device is `error` every further tick run
leaves it unchanged with zero requests — it never becomes `connected` again
without a discovery sweep re-upserting it. -/
theorem c9_theorem (d : Device) (vr sr : Option Resp) :
    (¬ d.status = "connected" → pollTick d vr sr = (d, 0)) ∧
    (d.status = "connected" →
      (pollTick d vr sr).1.status = "connected" ∨
      (pollTick d vr sr).1.status = "error") ∧
    (d.status = "error" → ∀ rs, pollTicks d rs = (d, 0)) := by
  refine ⟨?_, ?_, ?_⟩
  · intro h
    simp [pollTick, h]
  · intro h
    cases vr with
    | none => right; simp [pollTick, h, pollStatusWith]
    | some v =>
      cases sr with
      | none => right; simp [pollTick, h, pollStatusWith]
      | some st => left; simp [pollTick, h, pollStatusWith]
  · intro h
    exact pollTicks_stopped d (by rw [h]; decide)

/-- C9 witness: the concrete unreachable device is untouched by a tick and
by a run of two ticks. -/
theorem c9_witness :
    pollTick devErr none none = (devErr, 0) ∧
    pollTicks devErr [(none, none), (none, none)] = (devErr, 0) := by
  have h := c9_theorem devErr none none
  exact ⟨h.1 (by decide), h.2.2 rfl [(none, none), (none, none)]⟩

/-- C10 (confirmed): the component's `sendCommand` resolves to undefined on
every input (its catch swallows rejections and its body never returns the
awaited result), so a poll whose sub-fetches go through it always throws on
reading `.heos` of undefined, takes the error branch, and sets the device's
status to `error` with the error field populated while leaving the playback
fields unchanged — whatever the underlying API call would have answered. -/
theorem c10_theorem (d : Device) (s : AppState) (api1 api2 : ApiOutcome) :
    (∀ ip cmd v a, (sendCommand s ip cmd v a).2 = none) ∧
    (runPoll d s api1 api2).1.status = "error" ∧
    (runPoll d s api1 api2).1.error = some typeErrMsg ∧
    (runPoll d s api1 api2).1.state = d.state ∧
    (runPoll d s api1 api2).1.volume = d.volume := by
  have hsc : ∀ (s' : AppState) (ip cmd : String) (v : Option String) (a : ApiOutcome),
      (sendCommand s' ip cmd v a).2 = none := by
    intro s' ip cmd v a
    unfold sendCommand
    split
    · rfl
    · cases a <;> rfl
  have hrp : (runPoll d s api1 api2).1 =
      { d with status := "error", error := some typeErrMsg } := by
    simp only [runPoll, hsc]
  exact ⟨fun ip cmd v a => hsc s ip cmd v a,
    by rw [hrp], by rw [hrp], by rw [hrp], by rw [hrp]⟩

end HeosController
